import Mathlib

/-!
Verification development for the spaceship blueprint builder and tick
simulator.  The definitions below are a shallow embedding of the Python
sources `spaceship_basic.py` and `spaceship_bonusB.py`: dictionaries of
specs become records with `Option` fields for keys a dict entry may lack,
methods that can raise become functions returning the builder state at the
raise site together with an optional error, and the simulator tick pipeline
becomes a pure state-transformation function.
-/

namespace Spaceship

/-- Build phases of the blueprint builder (class `BuildPhase`). -/
inductive BuildPhase
  | INIT
  | FRAME_SET
  | CORE_LOCKED
  | FINALIZED
deriving DecidableEq, Repr

/-- One non-Frame entry of `MODULE_SPECS`.  A dict key a given entry does
not carry (for example `power_draw` on the reactors of the basic variant)
is `none`.  The field `type` is the variant name that `_get_spec` attaches
to the returned copy. -/
structure ModuleSpec where
  type : String
  slot_cost : Nat
  mass : Nat
  power_output : Option Nat
  power_draw : Option Nat
  thrust : Option Nat
  heat_generation : Option Nat
  max_hp : Option Nat
deriving DecidableEq, Repr

/-- The `Frame` entry of `MODULE_SPECS`. -/
structure FrameSpec where
  mass : Nat
  total_slots : Nat
deriving DecidableEq, Repr

/-- `MODULE_SPECS["Frame"]`, identical in every source variant. -/
def FRAME_SPEC : FrameSpec := { mass := 1000, total_slots := 10 }

/-- `MODULE_SPECS` of `spaceship_basic.py`: no heat, HP or reactor
power-draw figures. -/
def MODULE_SPECS_basic (category ty : String) : Option ModuleSpec :=
  if category = "Reactor" then
    if ty = "Fusion" then
      some { type := "Fusion", slot_cost := 3, mass := 300, power_output := some 1000,
             power_draw := none, thrust := none, heat_generation := none, max_hp := none }
    else if ty = "Antimatter" then
      some { type := "Antimatter", slot_cost := 3, mass := 450, power_output := some 1000,
             power_draw := none, thrust := none, heat_generation := none, max_hp := none }
    else none
  else if category = "Engine" then
    if ty = "Ion" then
      some { type := "Ion", slot_cost := 2, mass := 100, power_output := none,
             power_draw := some 250, thrust := some 500, heat_generation := none, max_hp := none }
    else if ty = "Plasma" then
      some { type := "Plasma", slot_cost := 2, mass := 120, power_output := none,
             power_draw := some 250, thrust := some 750, heat_generation := none, max_hp := none }
    else none
  else if category = "LifeSupport" then
    if ty = "Standard" then
      some { type := "Standard", slot_cost := 2, mass := 80, power_output := none,
             power_draw := some 50, thrust := none, heat_generation := none, max_hp := none }
    else if ty = "Advanced" then
      some { type := "Advanced", slot_cost := 2, mass := 70, power_output := none,
             power_draw := some 50, thrust := none, heat_generation := none, max_hp := none }
    else none
  else if category = "Bridge" then
    if ty = "Explorer" then
      some { type := "Explorer", slot_cost := 1, mass := 50, power_output := none,
             power_draw := some 75, thrust := none, heat_generation := none, max_hp := none }
    else if ty = "Command" then
      some { type := "Command", slot_cost := 1, mass := 60, power_output := none,
             power_draw := some 75, thrust := none, heat_generation := none, max_hp := none }
    else none
  else if category = "Shield" then
    if ty = "Magnetic" then
      some { type := "Magnetic", slot_cost := 1, mass := 40, power_output := none,
             power_draw := some 100, thrust := none, heat_generation := none, max_hp := none }
    else if ty = "Phase" then
      some { type := "Phase", slot_cost := 1, mass := 40, power_output := none,
             power_draw := some 100, thrust := none, heat_generation := none, max_hp := none }
    else none
  else if category = "Sensors" then
    if ty = "Basic" then
      some { type := "Basic", slot_cost := 1, mass := 30, power_output := none,
             power_draw := some 50, thrust := none, heat_generation := none, max_hp := none }
    else if ty = "Advanced" then
      some { type := "Advanced", slot_cost := 1, mass := 35, power_output := none,
             power_draw := some 50, thrust := none, heat_generation := none, max_hp := none }
    else none
  else none

/-- `MODULE_SPECS` of `spaceship_bonusB.py`: every module has a
`heat_generation`, reactors carry a cooling-system `power_draw`, and
shields carry a `max_hp`. -/
def MODULE_SPECS_bonusB (category ty : String) : Option ModuleSpec :=
  if category = "Reactor" then
    if ty = "Fusion" then
      some { type := "Fusion", slot_cost := 3, mass := 300, power_output := some 1000,
             power_draw := some 50, thrust := none, heat_generation := some 20, max_hp := none }
    else if ty = "Antimatter" then
      some { type := "Antimatter", slot_cost := 3, mass := 450, power_output := some 1000,
             power_draw := some 70, thrust := none, heat_generation := some 30, max_hp := none }
    else none
  else if category = "Engine" then
    if ty = "Ion" then
      some { type := "Ion", slot_cost := 2, mass := 100, power_output := none,
             power_draw := some 250, thrust := some 500, heat_generation := some 15, max_hp := none }
    else if ty = "Plasma" then
      some { type := "Plasma", slot_cost := 2, mass := 120, power_output := none,
             power_draw := some 250, thrust := some 750, heat_generation := some 25, max_hp := none }
    else none
  else if category = "LifeSupport" then
    if ty = "Standard" then
      some { type := "Standard", slot_cost := 2, mass := 80, power_output := none,
             power_draw := some 50, thrust := none, heat_generation := some 5, max_hp := none }
    else if ty = "Advanced" then
      some { type := "Advanced", slot_cost := 2, mass := 70, power_output := none,
             power_draw := some 50, thrust := none, heat_generation := some 8, max_hp := none }
    else none
  else if category = "Bridge" then
    if ty = "Explorer" then
      some { type := "Explorer", slot_cost := 1, mass := 50, power_output := none,
             power_draw := some 75, thrust := none, heat_generation := some 3, max_hp := none }
    else if ty = "Command" then
      some { type := "Command", slot_cost := 1, mass := 60, power_output := none,
             power_draw := some 75, thrust := none, heat_generation := some 4, max_hp := none }
    else none
  else if category = "Shield" then
    if ty = "Magnetic" then
      some { type := "Magnetic", slot_cost := 1, mass := 40, power_output := none,
             power_draw := some 100, thrust := none, heat_generation := some 10, max_hp := some 100 }
    else if ty = "Phase" then
      some { type := "Phase", slot_cost := 1, mass := 40, power_output := none,
             power_draw := some 100, thrust := none, heat_generation := some 12, max_hp := some 120 }
    else none
  else if category = "Sensors" then
    if ty = "Basic" then
      some { type := "Basic", slot_cost := 1, mass := 30, power_output := none,
             power_draw := some 50, thrust := none, heat_generation := some 2, max_hp := none }
    else if ty = "Advanced" then
      some { type := "Advanced", slot_cost := 1, mass := 35, power_output := none,
             power_draw := some 50, thrust := none, heat_generation := some 3, max_hp := none }
    else none
  else none

/-- The `SafetyViolationException` values a builder call can raise, plus
`PyTypeError` which models the unhandled Python `TypeError` that
`spaceship_basic.py` hits when `_calculate_specs` subscripts a `None`
frame. -/
inductive BuildError
  | UnknownComponent (category ty : String)
  | FrameNotSet
  | CapacityExceeded (required : Nat) (available : Int)
  | PhaseViolation (rule : String) (phase : BuildPhase)
  | FrameFirst
  | ImmutableDesign
  | DuplicateComponent (category : String)
  | IncompleteCoreSystem
  | IncompatibleComponent (msg : String)
  | MustLockCore
  | NotCoreLocked
  | PyTypeError
deriving DecidableEq, Repr

/-- Message of the `[B-440]` fusion/phase violation in `add_shield`. -/
def msgPhaseFusion : String := "Cannot install Phase Shield with Fusion Reactor."

/-- Message of the `[B-440]` antimatter/magnetic violation in `add_shield`. -/
def msgMagneticAntimatter : String := "Cannot install Magnetic Shield with Antimatter Reactor."

/-- Mutable state of `BlueprintBuilder` (identical fields in the basic and
bonusB variants). -/
structure Builder where
  phase : BuildPhase
  frame : Option FrameSpec
  reactors : List ModuleSpec
  engine : Option ModuleSpec
  life_support : Option ModuleSpec
  bridge : Option ModuleSpec
  shield : Option ModuleSpec
  sensors : Option ModuleSpec
  slots_used : Nat
deriving DecidableEq, Repr

/-- `start_blueprint()`: a fresh builder in phase `INIT`. -/
def start_blueprint : Builder :=
  { phase := .INIT, frame := none, reactors := [], engine := none, life_support := none,
    bridge := none, shield := none, sensors := none, slots_used := 0 }

/-- `_get_spec`: catalog lookup; a missing category or variant raises
`UnknownComponent`. -/
def get_spec (catalog : String → String → Option ModuleSpec) (category ty : String) :
    Except BuildError ModuleSpec :=
  match catalog category ty with
  | none => .error (.UnknownComponent category ty)
  | some s => .ok s

/-- `_check_slots` (rule B-307): `remaining = frame.total_slots - slots_used`
computed as in Python signed arithmetic; a cost above the remainder raises
`CapacityExceeded`. -/
def check_slots (b : Builder) (cost : Nat) : Option BuildError :=
  match b.frame with
  | none => some .FrameNotSet
  | some f =>
      let remaining : Int := (f.total_slots : Int) - (b.slots_used : Int)
      if (cost : Int) > remaining then some (.CapacityExceeded cost remaining) else none

/-- `_check_phase`: the operation must run in one of the allowed phases. -/
def check_phase (b : Builder) (allowed : List BuildPhase) (rule : String) : Option BuildError :=
  if b.phase ∈ allowed then none else some (.PhaseViolation rule b.phase)

/-- `_check_not_finalized` (rule A-212). -/
def check_not_finalized (b : Builder) : Option BuildError :=
  if b.phase = .FINALIZED then some .ImmutableDesign else none

/-- `set_frame`: legal only in phase `INIT` (rule A-103); note that the
source checks the phase directly and never calls `_check_not_finalized`.
Each method below returns the builder state current at the Python `return`
or `raise` site together with the raised error, if any; every `raise` in
the source precedes every field mutation, which is why the error results
carry the unchanged input. -/
def set_frame (b : Builder) : Builder × Option BuildError :=
  if b.phase ≠ .INIT then (b, some .FrameFirst)
  else ({ b with frame := some FRAME_SPEC, phase := .FRAME_SET }, none)

/-- `add_reactor`: multi-instance append, legal only in `FRAME_SET`. -/
def add_reactor (catalog : String → String → Option ModuleSpec) (b : Builder) (ty : String) :
    Builder × Option BuildError :=
  match check_not_finalized b with
  | some e => (b, some e)
  | none =>
  match check_phase b [.FRAME_SET] "A-305" with
  | some e => (b, some e)
  | none =>
  match get_spec catalog "Reactor" ty with
  | .error e => (b, some e)
  | .ok spec =>
  match check_slots b spec.slot_cost with
  | some e => (b, some e)
  | none =>
      ({ b with reactors := b.reactors ++ [spec], slots_used := b.slots_used + spec.slot_cost },
       none)

/-- `add_engine`: singleton, legal only in `FRAME_SET`. -/
def add_engine (catalog : String → String → Option ModuleSpec) (b : Builder) (ty : String) :
    Builder × Option BuildError :=
  match check_not_finalized b with
  | some e => (b, some e)
  | none =>
  match check_phase b [.FRAME_SET] "A-305" with
  | some e => (b, some e)
  | none =>
  if b.engine.isSome then (b, some (.DuplicateComponent "Engine"))
  else
  match get_spec catalog "Engine" ty with
  | .error e => (b, some e)
  | .ok spec =>
  match check_slots b spec.slot_cost with
  | some e => (b, some e)
  | none =>
      ({ b with engine := some spec, slots_used := b.slots_used + spec.slot_cost }, none)

/-- `add_life_support`: singleton, legal only in `FRAME_SET`. -/
def add_life_support (catalog : String → String → Option ModuleSpec) (b : Builder)
    (ty : String) : Builder × Option BuildError :=
  match check_not_finalized b with
  | some e => (b, some e)
  | none =>
  match check_phase b [.FRAME_SET] "A-305" with
  | some e => (b, some e)
  | none =>
  if b.life_support.isSome then (b, some (.DuplicateComponent "LifeSupport"))
  else
  match get_spec catalog "LifeSupport" ty with
  | .error e => (b, some e)
  | .ok spec =>
  match check_slots b spec.slot_cost with
  | some e => (b, some e)
  | none =>
      ({ b with life_support := some spec, slots_used := b.slots_used + spec.slot_cost }, none)

/-- `add_bridge`: singleton, legal only in `FRAME_SET`. -/
def add_bridge (catalog : String → String → Option ModuleSpec) (b : Builder) (ty : String) :
    Builder × Option BuildError :=
  match check_not_finalized b with
  | some e => (b, some e)
  | none =>
  match check_phase b [.FRAME_SET] "A-305" with
  | some e => (b, some e)
  | none =>
  if b.bridge.isSome then (b, some (.DuplicateComponent "Bridge"))
  else
  match get_spec catalog "Bridge" ty with
  | .error e => (b, some e)
  | .ok spec =>
  match check_slots b spec.slot_cost with
  | some e => (b, some e)
  | none =>
      ({ b with bridge := some spec, slots_used := b.slots_used + spec.slot_cost }, none)

/-- `lock_core_systems` (rule B-209): needs at least one reactor and the
three mandatory singletons. -/
def lock_core_systems (b : Builder) : Builder × Option BuildError :=
  match check_not_finalized b with
  | some e => (b, some e)
  | none =>
  match check_phase b [.FRAME_SET] "A-305" with
  | some e => (b, some e)
  | none =>
  if b.reactors ≠ [] ∧ b.engine.isSome ∧ b.life_support.isSome ∧ b.bridge.isSome then
    ({ b with phase := .CORE_LOCKED }, none)
  else (b, some .IncompleteCoreSystem)

/-- `any(r["type"] == "Fusion" for r in self.reactors)` in `add_shield`. -/
def has_fusion (b : Builder) : Bool :=
  b.reactors.any fun r => r.type = "Fusion"

/-- `any(r["type"] == "Antimatter" for r in self.reactors)` in `add_shield`. -/
def has_antimatter (b : Builder) : Bool :=
  b.reactors.any fun r => r.type = "Antimatter"

/-- `add_shield`: singleton, legal only in `CORE_LOCKED`, with the B-440
reactor compatibility rule checked before the slot check. -/
def add_shield (catalog : String → String → Option ModuleSpec) (b : Builder) (ty : String) :
    Builder × Option BuildError :=
  match check_not_finalized b with
  | some e => (b, some e)
  | none =>
  match check_phase b [.CORE_LOCKED] "A-305" with
  | some e => (b, some e)
  | none =>
  if b.shield.isSome then (b, some (.DuplicateComponent "Shield"))
  else
  match get_spec catalog "Shield" ty with
  | .error e => (b, some e)
  | .ok spec =>
  if has_fusion b ∧ ty = "Phase" then (b, some (.IncompatibleComponent msgPhaseFusion))
  else if has_antimatter b ∧ ty = "Magnetic" then
    (b, some (.IncompatibleComponent msgMagneticAntimatter))
  else
  match check_slots b spec.slot_cost with
  | some e => (b, some e)
  | none =>
      ({ b with shield := some spec, slots_used := b.slots_used + spec.slot_cost }, none)

/-- `add_sensors`: singleton, legal only in `CORE_LOCKED`. -/
def add_sensors (catalog : String → String → Option ModuleSpec) (b : Builder) (ty : String) :
    Builder × Option BuildError :=
  match check_not_finalized b with
  | some e => (b, some e)
  | none =>
  match check_phase b [.CORE_LOCKED] "A-305" with
  | some e => (b, some e)
  | none =>
  if b.sensors.isSome then (b, some (.DuplicateComponent "Sensors"))
  else
  match get_spec catalog "Sensors" ty with
  | .error e => (b, some e)
  | .ok spec =>
  match check_slots b spec.slot_cost with
  | some e => (b, some e)
  | none =>
      ({ b with sensors := some spec, slots_used := b.slots_used + spec.slot_cost }, none)

/-- `finalize_blueprint` of `spaceship_basic.py`.  Its phase guard raises
only from `FRAME_SET`; from `INIT` control falls through into
`_calculate_specs`, whose first statement subscripts `self.frame` and hence
raises an unhandled `TypeError` when no frame is set (modelled as
`PyTypeError`).  On success the phase becomes `FINALIZED`. -/
def finalize_basic (b : Builder) : Builder × Option BuildError :=
  match check_not_finalized b with
  | some e => (b, some e)
  | none =>
  if b.phase ≠ .CORE_LOCKED ∧ b.phase = .FRAME_SET then (b, some .MustLockCore)
  else
  match b.frame with
  | none => (b, some .PyTypeError)
  | some _ => ({ b with phase := .FINALIZED }, none)

/-- `finalize_blueprint` of `spaceship_bonusB.py`: any phase other than
`CORE_LOCKED` raises before specs are computed. -/
def finalize_bonusB (b : Builder) : Builder × Option BuildError :=
  match check_not_finalized b with
  | some e => (b, some e)
  | none =>
  if b.phase ≠ .CORE_LOCKED then
    if b.phase = .FRAME_SET then (b, some .MustLockCore) else (b, some .NotCoreLocked)
  else
  match b.frame with
  | none => (b, some .PyTypeError)
  | some _ => ({ b with phase := .FINALIZED }, none)

/-- The list `self.reactors + [engine, life_support, bridge, shield, sensors]`
with the `None` entries filtered out, as built in `_calculate_specs`. -/
def active_modules (b : Builder) : List ModuleSpec :=
  b.reactors ++ [b.engine, b.life_support, b.bridge, b.shield, b.sensors].filterMap id

/-- The non-reactor installed instances of the builder. -/
def singleton_specs (b : Builder) : List ModuleSpec :=
  [b.engine, b.life_support, b.bridge, b.shield, b.sensors].filterMap id

/-- Result record of `_calculate_specs`.  Python additionally renders the
floating-point display field `thrust_to_weight_ratio = total_thrust /
total_mass`; the embedding keeps its integer numerator `total_thrust`
(`total_mass` is already a field) instead of a float. -/
structure Specs where
  total_slots : Nat
  slots_used : Nat
  total_mass : Nat
  total_power_output : Nat
  total_power_consumption : Nat
  power_balance : Int
  total_thrust : Nat
deriving DecidableEq, Repr

/-- `_calculate_specs`, identical in both variants, applied to a builder
whose frame is `f`.  `m.get("power_draw", 0)` becomes `getD 0`; the direct
subscript `r["power_output"]` also becomes `getD 0` because every catalog
reactor carries the key. -/
def calculate_specs (b : Builder) (f : FrameSpec) : Specs :=
  let act := active_modules b
  let out := (b.reactors.map fun r => r.power_output.getD 0).sum
  let draw := (act.map fun m => m.power_draw.getD 0).sum
  { total_slots := f.total_slots
    slots_used := b.slots_used
    total_mass := f.mass + (act.map fun m => m.mass).sum
    total_power_output := out
    total_power_consumption := draw
    power_balance := (out : Int) - (draw : Int)
    total_thrust := match b.engine with | some e => e.thrust.getD 0 | none => 0 }

/-- One builder call, used to talk about arbitrary call sequences. -/
inductive BuildOp
  | set_frame
  | add_reactor (ty : String)
  | add_engine (ty : String)
  | add_life_support (ty : String)
  | add_bridge (ty : String)
  | lock_core_systems
  | add_shield (ty : String)
  | add_sensors (ty : String)
  | finalize_blueprint
deriving DecidableEq, Repr

/-- Dispatch one call on a `spaceship_basic.py` builder. -/
def applyOp (b : Builder) (op : BuildOp) : Builder × Option BuildError :=
  match op with
  | .set_frame => set_frame b
  | .add_reactor ty => add_reactor MODULE_SPECS_basic b ty
  | .add_engine ty => add_engine MODULE_SPECS_basic b ty
  | .add_life_support ty => add_life_support MODULE_SPECS_basic b ty
  | .add_bridge ty => add_bridge MODULE_SPECS_basic b ty
  | .lock_core_systems => lock_core_systems b
  | .add_shield ty => add_shield MODULE_SPECS_basic b ty
  | .add_sensors ty => add_sensors MODULE_SPECS_basic b ty
  | .finalize_blueprint => finalize_basic b

/-- Dispatch one call on a `spaceship_bonusB.py` builder. -/
def applyOpB (b : Builder) (op : BuildOp) : Builder × Option BuildError :=
  match op with
  | .set_frame => set_frame b
  | .add_reactor ty => add_reactor MODULE_SPECS_bonusB b ty
  | .add_engine ty => add_engine MODULE_SPECS_bonusB b ty
  | .add_life_support ty => add_life_support MODULE_SPECS_bonusB b ty
  | .add_bridge ty => add_bridge MODULE_SPECS_bonusB b ty
  | .lock_core_systems => lock_core_systems b
  | .add_shield ty => add_shield MODULE_SPECS_bonusB b ty
  | .add_sensors ty => add_sensors MODULE_SPECS_bonusB b ty
  | .finalize_blueprint => finalize_bonusB b

/-- Run a sequence of calls on a fresh basic builder; a failed call leaves
the builder it raised from (exceptions are caught by the caller in the
source demos, the builder object survives). -/
def runOps (ops : List BuildOp) : Builder :=
  ops.foldl (fun b op => (applyOp b op).1) start_blueprint

/-- Run a sequence of calls on a fresh bonusB builder. -/
def runOpsB (ops : List BuildOp) : Builder :=
  ops.foldl (fun b op => (applyOpB b op).1) start_blueprint

/-- Total slot cost of the installed (non-frame) components. -/
def opt_cost (o : Option ModuleSpec) : Nat :=
  match o with
  | none => 0
  | some m => m.slot_cost

/-- Total slot cost of all installed components of the builder. -/
def installed_slot_cost (b : Builder) : Nat :=
  (b.reactors.map fun m => m.slot_cost).sum + opt_cost b.engine + opt_cost b.life_support +
    opt_cost b.bridge + opt_cost b.shield + opt_cost b.sensors

/-- Builder invariant used for the slot-capacity claim: `slots_used` tracks
the total slot cost of the installed components, never exceeds the frame
capacity, the only frame ever installed is `FRAME_SPEC`, and without a
frame nothing is installed. -/
def BuilderInv (b : Builder) : Prop :=
  b.slots_used = installed_slot_cost b ∧
  (∀ f, b.frame = some f → f = FRAME_SPEC ∧ b.slots_used ≤ f.total_slots) ∧
  (b.frame = none → b.slots_used = 0)

/-- The valid design of the source demos (Scenario A), up to core lock. -/
def demoCoreOps : List BuildOp :=
  [.set_frame, .add_reactor "Fusion", .add_engine "Plasma", .add_life_support "Advanced",
   .add_bridge "Command", .lock_core_systems]

/-- The full valid design of the source demos (Scenario A). -/
def demoOps : List BuildOp :=
  demoCoreOps ++ [.add_shield "Magnetic", .add_sensors "Basic"]

/-- Basic builder after the demo sequence (phase `CORE_LOCKED`, Fusion
reactor installed, no shield yet). -/
def demoCoreLocked : Builder := runOps demoCoreOps

/-- Basic builder after the full demo sequence and finalize. -/
def demoFinalized : Builder := runOps (demoOps ++ [.finalize_blueprint])

/-- Basic builder right after `set_frame` (phase `FRAME_SET`). -/
def demoFrameSet : Builder := runOps [.set_frame]

/-- Basic builder holding three Fusion reactors (9 of 10 slots used). -/
def demoNineSlots : Builder :=
  runOps [.set_frame, .add_reactor "Fusion", .add_reactor "Fusion", .add_reactor "Fusion"]

/-- BonusB builder after the full demo sequence (phase `CORE_LOCKED`). -/
def demoBuilderB : Builder := runOpsB demoOps

/-- Runtime state enum `ModuleState` of `spaceship_bonusB.py`. -/
inductive ModuleState
  | ONLINE
  | OFFLINE
  | DEGRADED
  | FAILED
  | UNAVAILABLE
  | INACTIVE
  | EMERGENCY
  | OFFLINE_POWER_DENIED
deriving DecidableEq, Repr

/-- `POWER_PRIORITY` of `spaceship_bonusB.py` (lines 71-78): the fixed
category order of the allocation loop, highest priority first. -/
def POWER_PRIORITY : List String :=
  ["LifeSupport", "Reactor", "Bridge", "Engine", "Shield", "Sensors"]

/-- The arbitration order claimed by the specification (stage 3 of §4.4):
LifeSupport, then Shield, then the synthesized Cooler, then Bridge, Engine,
Sensors.  Stated from the specification wording only, to be compared with
`POWER_PRIORITY` above. -/
def claimedArbitrationOrder : List String :=
  ["LifeSupport", "Shield", "Cooler", "Bridge", "Engine", "Sensors"]

/-- `OVERHEAT_THRESHOLD` of `Module.check_overheat`. -/
def OVERHEAT_THRESHOLD : Nat := 100

/-- Runtime module instance (class `Module`). -/
structure Module where
  category : String
  spec : ModuleSpec
  state : ModuleState
  current_power : Nat
  heat : Nat
  hp : Nat
  is_full_thrust : Bool
deriving DecidableEq, Repr

/-- `Module.__init__`: reactors start `ONLINE`, everything else `OFFLINE`;
`hp = spec.get("max_hp", 100)`. -/
def init_module (category : String) (spec : ModuleSpec) : Module :=
  { category := category, spec := spec,
    state := if category = "Reactor" then .ONLINE else .OFFLINE,
    current_power := 0, heat := 0, hp := spec.max_hp.getD 100, is_full_thrust := false }

/-- `Module.update_power`: records the allocated power and derives the new
state.  A `FAILED` module keeps its state and is forced to zero power. -/
def update_power (m : Module) (allocated : Nat) : Module :=
  let m1 := { m with current_power := allocated }
  if m1.state = .FAILED then { m1 with current_power := 0 }
  else
    let required := m1.spec.power_draw.getD 0
    if m1.category = "Reactor" then
      if allocated ≥ required then { m1 with state := .ONLINE }
      else if allocated > 0 then { m1 with state := .DEGRADED }
      else { m1 with state := .FAILED }
    else if allocated ≥ required then { m1 with state := .ONLINE }
    else if allocated > 0 ∧ allocated < required then { m1 with state := .DEGRADED }
    else
      if m1.category = "Engine" ∧ m1.is_full_thrust then { m1 with state := .OFFLINE_POWER_DENIED }
      else { m1 with state := .OFFLINE }

/-- `Module.generate_heat`: only `ONLINE` and `DEGRADED` modules generate
heat; a full-thrust engine doubles its figure. -/
def generate_heat (m : Module) : Module :=
  if m.state = .ONLINE ∨ m.state = .DEGRADED then
    let base := m.spec.heat_generation.getD 0
    let base := if m.category = "Engine" ∧ m.is_full_thrust then base * 2 else base
    { m with heat := m.heat + base }
  else m

/-- `Module.dissipate_heat`: `heat = max(0, int(heat * 0.9))`.  For the
non-negative integer heats this program produces (always far below 2^49),
the float product truncates to exactly `9 * heat / 10` in integer
division, which is how it is embedded. -/
def dissipate_heat (m : Module) : Module :=
  { m with heat := m.heat * 9 / 10 }

/-- `Module.check_overheat`: strictly above the threshold the module fails,
its heat is clamped to the threshold and an alert (the returned flag) is
raised. -/
def check_overheat (m : Module) : Module × Bool :=
  if m.heat > OVERHEAT_THRESHOLD then
    ({ m with state := .FAILED, heat := OVERHEAT_THRESHOLD }, true)
  else (m, false)

/-- `Module.take_damage`: shields that are not already failed lose HP
(floored at zero) and fail at zero HP. -/
def take_damage (m : Module) (damage : Nat) : Module :=
  if m.category = "Shield" ∧ m.state ≠ .FAILED then
    let hp2 := m.hp - damage
    { m with hp := hp2, state := if hp2 = 0 then .FAILED else m.state }
  else m

/-- The per-module body of `_update_thermodynamics`: generate, dissipate,
check overheat. -/
def thermo_module (m : Module) : Module :=
  (check_overheat (dissipate_heat (generate_heat m))).1

/-- Whether the per-module thermodynamics update raises an overheat alert. -/
def thermo_alert (m : Module) : Bool :=
  (check_overheat (dissipate_heat (generate_heat m))).2

/-- External events (enum `ExternalEvent`). -/
inductive ExternalEvent
  | SHIELD_HIT
  | ENGINE_FULL_THRUST
deriving DecidableEq, Repr

/-- `ExternalEvent(name)`: the enum lookup that raises `ValueError` on an
unknown name (modelled as `none`). -/
def eventOfName (name : String) : Option ExternalEvent :=
  if name = "ShieldHit" then some .SHIELD_HIT
  else if name = "EngineFullThrust" then some .ENGINE_FULL_THRUST
  else none

/-- The list comprehension `[ExternalEvent(n) for n in event_names]`:
fails (`ValueError`) as soon as one name is unknown. -/
def parseEventList (names : List String) : Option (List ExternalEvent) :=
  names.mapM eventOfName

/-- State of `ShipSimulator`: the category-keyed module map (a Python dict
in insertion order, embedded as an association list), the fixed power
output of the blueprint, the tick counter and the per-tick full-thrust
flag. -/
structure ShipSim where
  modules : List (String × List Module)
  total_power_output : Nat
  current_tick : Nat
  full_thrust_enabled : Bool
deriving DecidableEq, Repr

/-- Dict lookup `self.modules[c]` (first entry with the key). -/
def getCat : List (String × List Module) → String → Option (List Module)
  | [], _ => none
  | p :: rest, c => if p.1 = c then some p.2 else getCat rest c

/-- Dict update `self.modules[c] = ms` (rewrites every entry with the key;
the maps this program builds have distinct keys). -/
def setCat (mods : List (String × List Module)) (c : String) (ms : List Module) :
    List (String × List Module) :=
  mods.map fun p => if p.1 = c then (c, ms) else p

/-- Module at key `c`, position `i` of the map. -/
def modAt (mods : List (String × List Module)) (c : String) (i : Nat) : Option Module :=
  match getCat mods c with
  | none => none
  | some l => l.get? i

/-- The inner loop of `_allocate_power` over one category list: a failed
module is given zero power and the budget is untouched; otherwise
`allocated = min(required, remaining)` is granted and subtracted. -/
def allocate_list : List Module → Nat → List Module × Nat
  | [], remaining => ([], remaining)
  | m :: rest, remaining =>
      if m.state = .FAILED then
        let res := allocate_list rest remaining
        (update_power m 0 :: res.1, res.2)
      else
        let allocated := min (m.spec.power_draw.getD 0) remaining
        let res := allocate_list rest (remaining - allocated)
        (update_power m allocated :: res.1, res.2)

/-- One step of the `for category in POWER_PRIORITY` loop of
`_allocate_power`: skip absent categories, otherwise allocate to the
category list and store it back. -/
def allocStep (acc : List (String × List Module) × Nat) (c : String) :
    List (String × List Module) × Nat :=
  match getCat acc.1 c with
  | none => acc
  | some ms =>
      let res := allocate_list ms acc.2
      (setCat acc.1 c res.1, res.2)

/-- `_allocate_power`: fold the priority loop starting from the fixed
`total_power_output` budget. -/
def allocate_power (s : ShipSim) : ShipSim :=
  { s with modules := (POWER_PRIORITY.foldl allocStep (s.modules, s.total_power_output)).1 }

/-- `_process_events` body for a single event. -/
def process_event (s : ShipSim) (e : ExternalEvent) : ShipSim :=
  match e with
  | .ENGINE_FULL_THRUST =>
      let s1 := { s with full_thrust_enabled := true }
      match getCat s1.modules "Engine" with
      | some (eng :: rest) =>
          { s1 with modules := setCat s1.modules "Engine" ({ eng with is_full_thrust := true } :: rest) }
      | _ => s1
  | .SHIELD_HIT =>
      match getCat s.modules "Shield" with
      | some (sh :: rest) =>
          if sh.state ≠ .FAILED then
            { s with modules := setCat s.modules "Shield" (take_damage sh 20 :: rest) }
          else s
      | _ => s

/-- `_update_thermodynamics`: every module generates, dissipates and is
checked for overheat (alerts are observability only). -/
def update_thermodynamics (s : ShipSim) : ShipSim :=
  { s with modules := s.modules.map fun p => (p.1, p.2.map thermo_module) }

/-- The end-of-tick reset of the engine full-thrust flags. -/
def reset_thrust (s : ShipSim) : ShipSim :=
  let s1 : ShipSim :=
    match getCat s.modules "Engine" with
    | some engs =>
        { s with modules :=
            setCat s.modules "Engine" (engs.map fun m2 => { m2 with is_full_thrust := false }) }
    | none => s
  { s1 with full_thrust_enabled := false }

/-- `ShipSimulator.tick` after event decoding: bump the counter, process
events, allocate power, update thermodynamics (`_handle_chain_reactions`
only emits alerts and mutates nothing), then reset the per-tick flags. -/
def tick_core (s : ShipSim) (events : List ExternalEvent) : ShipSim :=
  let s1 := { s with current_tick := s.current_tick + 1 }
  let s2 := events.foldl process_event s1
  let s3 := allocate_power s2
  let s4 := update_thermodynamics s3
  reset_thrust s4

/-- `ShipSimulator.tick` including the event-decoding guard.  JSON decoding
is an external collaborator: its outcome is the input, `none` standing for
`json.JSONDecodeError` (malformed JSON) and `some names` for a decoded name
list.  Both decode failure and an unknown event name are swallowed into an
empty event set for the tick. -/
def tick (s : ShipSim) (decoded : Option (List String)) : ShipSim :=
  let events :=
    match decoded with
    | none => []
    | some names =>
        match parseEventList names with
        | none => []
        | some evs => evs
  tick_core s events

/-- Iterated ticks. -/
def run_ticks (s : ShipSim) (evss : List (List ExternalEvent)) : ShipSim :=
  evss.foldl tick_core s

/-- `finalize_blueprint` (bonusB) module construction: the category map in
dict insertion order, keeping only installed categories. -/
def build_modules (b : Builder) : List (String × List Module) :=
  (([("Reactor", b.reactors), ("Engine", b.engine.toList),
     ("LifeSupport", b.life_support.toList), ("Bridge", b.bridge.toList),
     ("Shield", b.shield.toList), ("Sensors", b.sensors.toList)]).filter
    fun p => ¬ p.2.isEmpty).map fun p => (p.1, p.2.map (init_module p.1))

/-- `ShipSimulator.__init__` applied to the blueprint a builder with frame
`f` finalizes to. -/
def simulator_of (b : Builder) (f : FrameSpec) : ShipSim :=
  { modules := build_modules b,
    total_power_output := (calculate_specs b f).total_power_output,
    current_tick := 0, full_thrust_enabled := false }

/-- The ship-wide heat reported by `_get_json_state`: the sum of all module
heats. -/
def total_heat (s : ShipSim) : Nat :=
  (s.modules.map fun p => (p.2.map fun m => m.heat).sum).sum

/-- The simulator of the demo blueprint of `spaceship_bonusB.py`. -/
def demoShip : ShipSim := simulator_of demoBuilderB FRAME_SPEC

/-- A shield module at zero power with the bonusB Magnetic spec (used to
exhibit the min-based allocation on a short budget). -/
def demoShieldModule : Module :=
  { category := "Shield",
    spec := { type := "Magnetic", slot_cost := 1, mass := 40, power_output := none,
              power_draw := some 100, thrust := none, heat_generation := some 10,
              max_hp := some 100 },
    state := .OFFLINE, current_power := 0, heat := 0, hp := 100, is_full_thrust := false }

/-- An online Antimatter reactor module carrying 91 heat: one tick of heat
generation and dissipation brings it to 108, strictly above the overheat
threshold. -/
def demoReactorHot : Module :=
  { category := "Reactor",
    spec := { type := "Antimatter", slot_cost := 3, mass := 450, power_output := some 1000,
              power_draw := some 70, thrust := none, heat_generation := some 30, max_hp := none },
    state := .ONLINE, current_power := 70, heat := 91, hp := 100, is_full_thrust := false }

/-- The same reactor at 82 heat: one update lands exactly on the threshold. -/
def demoReactorEdge : Module :=
  { demoReactorHot with heat := 82 }

/-- The same reactor carrying 108 heat, strictly above the threshold. -/
def demoOverheated : Module :=
  { demoReactorHot with heat := 108 }

/-- A failed shield module holding residual power (used as the concrete
input of the failure-absorption claim). -/
def demoFailedShield : Module :=
  { demoShieldModule with state := .FAILED, hp := 0, current_power := 7 }

/-- The demo ship with its shield already failed. -/
def demoShipFailedShield : ShipSim :=
  { demoShip with modules := setCat demoShip.modules "Shield" [demoFailedShield] }

/-! ### Builder lemmas -/

/-- Every builder call either leaves the builder untouched or raises no
error: each raise site of the source precedes every field mutation. -/
theorem applyOp_keeps (b : Builder) (op : BuildOp) :
    (applyOp b op).1 = b ∨ (applyOp b op).2 = none := by
  cases op <;>
    simp only [applyOp, set_frame, add_reactor, add_engine, add_life_support, add_bridge,
      lock_core_systems, add_shield, add_sensors, finalize_basic] <;>
    (repeat' split) <;> simp

/-- A failed builder call returns the unchanged input builder. -/
theorem applyOp_error_eq (b : Builder) (op : BuildOp) (e : BuildError)
    (h : (applyOp b op).2 = some e) : (applyOp b op).1 = b := by
  rcases applyOp_keeps b op with h1 | h1
  · exact h1
  · rw [h1] at h
    simp at h

/-- A passed slot check means a frame is present and the new total fits. -/
theorem check_slots_ok {b : Builder} {cost : Nat} (h : check_slots b cost = none) :
    ∃ f, b.frame = some f ∧ b.slots_used + cost ≤ f.total_slots := by
  unfold check_slots at h
  cases hf : b.frame with
  | none => rw [hf] at h; simp at h
  | some f =>
      rw [hf] at h
      refine ⟨f, rfl, ?_⟩
      by_cases hc : (cost : Int) > (f.total_slots : Int) - (b.slots_used : Int)
      · simp [hc] at h
      · omega

/-- The slot check can only pass, report a missing frame, or report a
capacity violation. -/
theorem check_slots_cases (b : Builder) (cost : Nat) :
    check_slots b cost = none ∨ check_slots b cost = some .FrameNotSet ∨
      ∃ r a, check_slots b cost = some (.CapacityExceeded r a) := by
  unfold check_slots
  cases b.frame with
  | none => simp
  | some f =>
      by_cases hc : (cost : Int) > (f.total_slots : Int) - (b.slots_used : Int)
      · exact Or.inr
          (Or.inr ⟨cost, (f.total_slots : Int) - (b.slots_used : Int), by simp [hc]⟩)
      · exact Or.inl (by simp [hc])

/-- Slot-accounting invariant is preserved by any single successful
component installation. -/
theorem inv_update {b : Builder} (spec : ModuleSpec) (b2 : Builder)
    (hslots : check_slots b spec.slot_cost = none)
    (hinst : installed_slot_cost b2 = installed_slot_cost b + spec.slot_cost)
    (hframe : b2.frame = b.frame)
    (hsl : b2.slots_used = b.slots_used + spec.slot_cost)
    (hb : BuilderInv b) : BuilderInv b2 := by
  obtain ⟨h1, h2, h3⟩ := hb
  obtain ⟨f0, hf0, hle⟩ := check_slots_ok hslots
  refine ⟨?_, ?_, ?_⟩
  · rw [hsl, hinst, h1]
  · intro f hf
    rw [hframe, hf0] at hf
    injection hf with hff
    subst hff
    obtain ⟨he, _⟩ := h2 f0 hf0
    exact ⟨he, by rw [hsl]; exact hle⟩
  · intro hf
    rw [hframe, hf0] at hf
    exact Option.noConfusion hf

/-- Every builder call preserves the slot-accounting invariant. -/
theorem applyOp_inv (b : Builder) (op : BuildOp) (hb : BuilderInv b) :
    BuilderInv (applyOp b op).1 := by
  obtain ⟨h1, h2, h3⟩ := hb
  have hbb : BuilderInv b := ⟨h1, h2, h3⟩
  cases op <;>
    simp only [applyOp, set_frame, add_reactor, add_engine, add_life_support, add_bridge,
      lock_core_systems, add_shield, add_sensors, finalize_basic] <;>
    (repeat' split) <;>
    (try exact hbb) <;>
    first
      | (refine ⟨h1, ?_, fun hf => Option.noConfusion hf⟩
         intro f hf
         injection hf with hff
         subst hff
         refine ⟨rfl, ?_⟩
         cases hfr : b.frame with
         | none => rw [h3 hfr]; exact Nat.zero_le _
         | some f0 =>
             obtain ⟨he, hle⟩ := h2 f0 hfr
             rw [he] at hle
             exact hle)
      | (rename_i hslots
         refine inv_update _ _ hslots ?_ rfl rfl hbb
         simp_all [installed_slot_cost, opt_cost, Option.not_isSome_iff_eq_none]
         try omega)

/-- The invariant propagates through any call sequence. -/
theorem foldl_inv (ops : List BuildOp) (b : Builder) (hb : BuilderInv b) :
    BuilderInv (ops.foldl (fun b2 op => (applyOp b2 op).1) b) := by
  induction ops generalizing b with
  | nil => exact hb
  | cons op rest ih => exact ih _ (applyOp_inv b op hb)

/-- A fresh builder satisfies the invariant. -/
theorem start_inv : BuilderInv start_blueprint := by
  refine ⟨rfl, ?_, fun _ => rfl⟩
  intro f hf
  exact Option.noConfusion hf

/-- Every builder reachable by a call sequence satisfies the invariant. -/
theorem runOps_inv (ops : List BuildOp) : BuilderInv (runOps ops) :=
  foldl_inv ops start_blueprint start_inv

/-- C3: for every sequence of builder calls starting from a fresh builder,
`slots_used` tracks the total slot cost of the installed components and
never exceeds the frame total slot capacity at any observable point of the
sequence, and an add operation whose slot cost exceeds the remaining
capacity fails with `CapacityExceeded` and installs nothing. -/
theorem C3_slot_capacity_invariant :
    (∀ (ops : List BuildOp) (f : FrameSpec), (runOps ops).frame = some f →
       (runOps ops).slots_used ≤ f.total_slots ∧
       (runOps ops).slots_used = installed_slot_cost (runOps ops)) ∧
    (∀ (b : Builder) (op : BuildOp) (req : Nat) (avail : Int),
       (applyOp b op).2 = some (.CapacityExceeded req avail) → (applyOp b op).1 = b) := by
  constructor
  · intro ops f hf
    obtain ⟨h1, h2, _⟩ := runOps_inv ops
    exact ⟨(h2 f hf).2, h1⟩
  · intro b op req avail h
    exact applyOp_error_eq b op _ h

/-- Witness for C3 at the demo sequence and at a 9-of-10-slots builder
rejecting a fourth 3-slot reactor. -/
theorem C3_slot_capacity_invariant_witness :
    ((runOps demoOps).slots_used ≤ FRAME_SPEC.total_slots ∧
      (runOps demoOps).slots_used = installed_slot_cost (runOps demoOps)) ∧
    (applyOp demoNineSlots (.add_reactor "Fusion")).1 = demoNineSlots :=
  ⟨C3_slot_capacity_invariant.1 demoOps FRAME_SPEC rfl,
   C3_slot_capacity_invariant.2 demoNineSlots (.add_reactor "Fusion") 3 1 rfl⟩

/-- C9: whenever a builder operation fails with a construction error, the
builder state (phase, every installed component and `slots_used`) is
exactly what it was before the failed call. -/
theorem C9_error_no_mutation :
    ∀ (b : Builder) (op : BuildOp) (e : BuildError),
      (applyOp b op).2 = some e → (applyOp b op).1 = b :=
  fun b op e h => applyOp_error_eq b op e h

/-- Witness for C9: `add_reactor` called in phase `INIT` fails (Scenario B)
and leaves the fresh builder untouched. -/
theorem C9_error_no_mutation_witness :
    (applyOp start_blueprint (.add_reactor "Fusion")).1 = start_blueprint :=
  C9_error_no_mutation start_blueprint (.add_reactor "Fusion")
    (.PhaseViolation "A-305" .INIT) rfl

/-- C2 counterexample: on a finalized builder, `set_frame` raises the
`A-103` frame-first phase error, not `ImmutableDesign` (A-212) — the source
`set_frame` never calls `_check_not_finalized`. -/
theorem C2_finalized_counterexample :
    demoFinalized.phase = .FINALIZED ∧
    (applyOp demoFinalized .set_frame).2 = some .FrameFirst ∧
    some BuildError.FrameFirst ≠ some BuildError.ImmutableDesign :=
  ⟨rfl, rfl, by decide⟩

/-- C2 (amended): on a builder already in phase `FINALIZED`, every builder
method except `set_frame` fails with `ImmutableDesign` (A-212) before any
other check, while `set_frame` fails with the `A-103` frame-first phase
error. -/
theorem C2_finalized_amended :
    (∀ (b : Builder) (op : BuildOp), b.phase = .FINALIZED → op ≠ .set_frame →
       (applyOp b op).2 = some .ImmutableDesign) ∧
    (∀ b : Builder, b.phase = .FINALIZED → set_frame b = (b, some .FrameFirst)) := by
  constructor
  · intro b op hph hop
    cases op with
    | set_frame => exact absurd rfl hop
    | add_reactor ty => simp [applyOp, add_reactor, check_not_finalized, hph]
    | add_engine ty => simp [applyOp, add_engine, check_not_finalized, hph]
    | add_life_support ty => simp [applyOp, add_life_support, check_not_finalized, hph]
    | add_bridge ty => simp [applyOp, add_bridge, check_not_finalized, hph]
    | lock_core_systems => simp [applyOp, lock_core_systems, check_not_finalized, hph]
    | add_shield ty => simp [applyOp, add_shield, check_not_finalized, hph]
    | add_sensors ty => simp [applyOp, add_sensors, check_not_finalized, hph]
    | finalize_blueprint => simp [applyOp, finalize_basic, check_not_finalized, hph]
  · intro b hph
    simp [set_frame, hph]

/-- Witness for the amended C2 at the finalized demo builder. -/
theorem C2_finalized_amended_witness :
    (applyOp demoFinalized (.add_reactor "Fusion")).2 = some .ImmutableDesign ∧
    set_frame demoFinalized = (demoFinalized, some .FrameFirst) :=
  ⟨C2_finalized_amended.1 demoFinalized (.add_reactor "Fusion") rfl (by decide),
   C2_finalized_amended.2 demoFinalized rfl⟩

/-- C4 (code_bug): in `spaceship_basic.py`, `finalize_blueprint` called in
phase `INIT` does not raise a `PhaseViolation`: the phase guard only covers
`FRAME_SET`, control falls through into `_calculate_specs` and the call
dies with an unhandled Python `TypeError` on the `None` frame (no partial
finalization: the phase stays `INIT`).  `spaceship_bonusB.py` raises the
intended phase errors from both `INIT` and `FRAME_SET` and succeeds
exactly from `CORE_LOCKED`. -/
theorem C4_finalize_phase_bug :
    finalize_basic start_blueprint = (start_blueprint, some .PyTypeError) ∧
    (runOps [.finalize_blueprint]).phase = .INIT ∧
    finalize_basic demoFrameSet = (demoFrameSet, some .MustLockCore) ∧
    finalize_bonusB start_blueprint = (start_blueprint, some .NotCoreLocked) ∧
    finalize_bonusB demoFrameSet = (demoFrameSet, some .MustLockCore) ∧
    (finalize_bonusB demoBuilderB).2 = none ∧
    (finalize_bonusB demoBuilderB).1.phase = .FINALIZED :=
  ⟨rfl, rfl, rfl, rfl, rfl, rfl, rfl⟩

/-- C7: with the core locked and no shield installed, `add_shield` fails
with `IncompatibleComponent` for exactly the reactor/shield pairs
(Fusion, Phase) and (Antimatter, Magnetic); the other two pairs succeed
whenever no duplicate-shield or capacity violation applies. -/
theorem C7_shield_compatibility :
    ∀ b : Builder, b.phase = .CORE_LOCKED → b.shield = none →
      ((has_fusion b = true →
          add_shield MODULE_SPECS_basic b "Phase" =
            (b, some (.IncompatibleComponent msgPhaseFusion))) ∧
       (has_antimatter b = true →
          add_shield MODULE_SPECS_basic b "Magnetic" =
            (b, some (.IncompatibleComponent msgMagneticAntimatter))) ∧
       (∀ e, (add_shield MODULE_SPECS_basic b "Phase").2 = some (.IncompatibleComponent e) →
          has_fusion b = true ∧ e = msgPhaseFusion) ∧
       (∀ e, (add_shield MODULE_SPECS_basic b "Magnetic").2 = some (.IncompatibleComponent e) →
          has_antimatter b = true ∧ e = msgMagneticAntimatter) ∧
       (has_fusion b = false → check_slots b 1 = none →
          (add_shield MODULE_SPECS_basic b "Phase").2 = none ∧
          (add_shield MODULE_SPECS_basic b "Phase").1.shield.isSome = true) ∧
       (has_antimatter b = false → check_slots b 1 = none →
          (add_shield MODULE_SPECS_basic b "Magnetic").2 = none ∧
          (add_shield MODULE_SPECS_basic b "Magnetic").1.shield.isSome = true)) := by
  intro b hph hsh
  have hnotf : check_not_finalized b = none := by simp [check_not_finalized, hph]
  have hchk : check_phase b [BuildPhase.CORE_LOCKED] "A-305" = none := by
    simp [check_phase, hph]
  refine ⟨?_, ?_, ?_, ?_, ?_, ?_⟩
  · intro hfus
    simp [add_shield, hnotf, hchk, hsh, get_spec, MODULE_SPECS_basic, hfus]
  · intro hanti
    by_cases hfus : has_fusion b = true <;>
      simp [add_shield, hnotf, hchk, hsh, get_spec, MODULE_SPECS_basic, hanti, hfus]
  · intro e he
    by_cases hfus : has_fusion b = true
    · refine ⟨hfus, ?_⟩
      simp [add_shield, hnotf, hchk, hsh, get_spec, MODULE_SPECS_basic, hfus] at he
      exact he.symm
    · exfalso
      simp [add_shield, hnotf, hchk, hsh, get_spec, MODULE_SPECS_basic, hfus] at he
      rcases check_slots_cases b 1 with h | h | ⟨r, a, h⟩ <;> rw [h] at he <;> simp at he
  · intro e he
    by_cases hanti : has_antimatter b = true
    · refine ⟨hanti, ?_⟩
      by_cases hfus : has_fusion b = true <;>
        simp [add_shield, hnotf, hchk, hsh, get_spec, MODULE_SPECS_basic, hfus, hanti] at he <;>
        exact he.symm
    · exfalso
      by_cases hfus : has_fusion b = true <;>
        simp [add_shield, hnotf, hchk, hsh, get_spec, MODULE_SPECS_basic, hfus, hanti] at he <;>
        (rcases check_slots_cases b 1 with h | h | ⟨r, a, h⟩ <;> rw [h] at he <;> simp at he)
  · intro hfus hcs
    simp [add_shield, hnotf, hchk, hsh, get_spec, MODULE_SPECS_basic, hfus, hcs]
  · intro hanti hcs
    by_cases hfus : has_fusion b = true <;>
      simp [add_shield, hnotf, hchk, hsh, get_spec, MODULE_SPECS_basic, hfus, hanti, hcs]

/-- Witness for C7 at the core-locked demo builder holding a Fusion
reactor: a Phase shield is rejected (Scenario C), a Magnetic one accepted. -/
theorem C7_shield_compatibility_witness :
    add_shield MODULE_SPECS_basic demoCoreLocked "Phase" =
      (demoCoreLocked, some (.IncompatibleComponent msgPhaseFusion)) ∧
    (add_shield MODULE_SPECS_basic demoCoreLocked "Magnetic").2 = none :=
  ⟨(C7_shield_compatibility demoCoreLocked rfl rfl).1 rfl,
   ((C7_shield_compatibility demoCoreLocked rfl rfl).2.2.2.2.2 rfl rfl).1⟩

/-- C8: the statistics `_calculate_specs` computes satisfy
`totalMass = frame.mass + sum of the masses of all installed instances`
(each reactor counted individually) and `totalPowerDraw = sum of
power_draw over all installed non-Frame instances` with each installed
reactor draw a term of the sum — in the bonusB catalog every reactor
carries its cooling-load `power_draw` (50 for Fusion, 70 for Antimatter),
and for the demo design the reactor draw is visibly included
(575 = 50 + 250 + 50 + 75 + 100 + 50). -/
theorem C8_design_statistics :
    (∀ (b : Builder) (f : FrameSpec),
       (calculate_specs b f).total_mass =
         f.mass + ((b.reactors.map fun m => m.mass).sum +
           ((singleton_specs b).map fun m => m.mass).sum) ∧
       (calculate_specs b f).total_power_consumption =
         (b.reactors.map fun m => m.power_draw.getD 0).sum +
           ((singleton_specs b).map fun m => m.power_draw.getD 0).sum) ∧
    (MODULE_SPECS_bonusB "Reactor" "Fusion").bind (fun s => s.power_draw) = some 50 ∧
    (MODULE_SPECS_bonusB "Reactor" "Antimatter").bind (fun s => s.power_draw) = some 70 ∧
    (calculate_specs demoBuilderB FRAME_SPEC).total_power_consumption = 575 ∧
    (calculate_specs demoBuilderB FRAME_SPEC).total_mass = 1620 := by
  refine ⟨?_, rfl, rfl, rfl, rfl⟩
  intro b f
  constructor <;>
    simp [calculate_specs, active_modules, singleton_specs]

/-! ### Simulator lemmas -/

/-- Processing an event never touches the tick counter. -/
theorem process_event_tick (s : ShipSim) (e : ExternalEvent) :
    (process_event s e).current_tick = s.current_tick := by
  cases e <;> simp only [process_event] <;> (repeat' split) <;> rfl

/-- Folding the event list never touches the tick counter. -/
theorem events_fold_tick (evs : List ExternalEvent) (s : ShipSim) :
    (evs.foldl process_event s).current_tick = s.current_tick := by
  induction evs generalizing s with
  | nil => rfl
  | cons e rest ih => rw [List.foldl_cons, ih, process_event_tick]

/-- The thrust-flag reset never touches the tick counter. -/
theorem reset_thrust_tick (s : ShipSim) :
    (reset_thrust s).current_tick = s.current_tick := by
  unfold reset_thrust
  split <;> rfl

/-- A tick advances the counter by exactly one. -/
theorem tick_core_tick (s : ShipSim) (evs : List ExternalEvent) :
    (tick_core s evs).current_tick = s.current_tick + 1 := by
  show (reset_thrust (update_thermodynamics (allocate_power
    (evs.foldl process_event { s with current_tick := s.current_tick + 1 })))).current_tick = _
  rw [reset_thrust_tick]
  show (evs.foldl process_event { s with current_tick := s.current_tick + 1 }).current_tick = _
  rw [events_fold_tick]

/-- C6 counterexample: the reactor reaching 108 heat (at or above the
threshold of 100) is clamped back down to 100 by `check_overheat`, and the
reactor landing exactly on 100 raises no alert at all — refuting both the
meets-or-exceeds alert condition and the no-clamping part of the claim. -/
theorem C6_overheat_counterexample :
    (dissipate_heat (generate_heat demoReactorHot)).heat = 108 ∧
    OVERHEAT_THRESHOLD ≤ 108 ∧
    thermo_alert demoReactorHot = true ∧
    (thermo_module demoReactorHot).heat = 100 ∧
    (100 : Nat) ≠ 108 ∧
    (dissipate_heat (generate_heat demoReactorEdge)).heat = 100 ∧
    OVERHEAT_THRESHOLD ≤ 100 ∧
    thermo_alert demoReactorEdge = false := by
  decide

/-- C6 (amended): the overheat alert fires exactly when a module's heat is
strictly above the fixed threshold after the tick's heat update; the module
is then set to `FAILED` and its heat is clamped down to the threshold, so
the alert does not repeat: a failed module at or below the threshold never
alerts again (it generates no heat and only dissipates). -/
theorem C6_overheat_amended :
    (∀ m : Module,
       (OVERHEAT_THRESHOLD < m.heat →
          check_overheat m = ({ m with state := .FAILED, heat := OVERHEAT_THRESHOLD }, true)) ∧
       (m.heat ≤ OVERHEAT_THRESHOLD → check_overheat m = (m, false))) ∧
    (∀ m : Module, m.state = .FAILED → m.heat ≤ OVERHEAT_THRESHOLD →
       thermo_alert m = false) := by
  constructor
  · intro m
    constructor
    · intro h
      simp [check_overheat, h]
    · intro h
      simp [check_overheat, Nat.not_lt.mpr h]
  · intro m hst hheat
    unfold thermo_alert
    have hg : generate_heat m = m := by simp [generate_heat, hst]
    rw [hg]
    have hle : ¬ ((dissipate_heat m).heat > OVERHEAT_THRESHOLD) := by
      show ¬ (m.heat * 9 / 10 > OVERHEAT_THRESHOLD)
      unfold OVERHEAT_THRESHOLD at hheat ⊢
      omega
    simp [check_overheat, hle]

/-- Witness for the amended C6: the 108-heat reactor is clamped and failed
with an alert; an already-failed module below the threshold never alerts. -/
theorem C6_overheat_amended_witness :
    check_overheat demoOverheated =
      ({ demoOverheated with state := .FAILED, heat := OVERHEAT_THRESHOLD }, true) ∧
    thermo_alert demoFailedShield = false :=
  ⟨(C6_overheat_amended.1 demoOverheated).1 (by decide),
   C6_overheat_amended.2 demoFailedShield rfl (by decide)⟩

/-- C5 counterexample: a malformed tick (invalid JSON) on the freshly built
demo ship is not a no-op — the ship heat and the engine status change — even
though the tick counter does advance by one. -/
theorem C5_malformed_tick_counterexample :
    total_heat (tick demoShip none) ≠ total_heat demoShip ∧
    (tick demoShip none).current_tick = demoShip.current_tick + 1 ∧
    (modAt (tick demoShip none).modules "Engine" 0).map (fun m => m.state) ≠
      (modAt demoShip.modules "Engine" 0).map (fun m => m.state) := by
  refine ⟨?_, rfl, ?_⟩ <;> decide

/-- C5 (amended): a tick whose event argument is malformed (invalid JSON or
an unrecognized event name) raises nothing, is executed as a normal tick
with an empty event set, and still advances the tick counter by exactly
one. -/
theorem C5_malformed_tick_amended :
    (∀ s : ShipSim, tick s none = tick_core s [] ∧
       (tick s none).current_tick = s.current_tick + 1) ∧
    (∀ (s : ShipSim) (names : List String), parseEventList names = none →
       tick s (some names) = tick_core s [] ∧
       (tick s (some names)).current_tick = s.current_tick + 1) := by
  constructor
  · intro s
    exact ⟨rfl, tick_core_tick s []⟩
  · intro s names h
    have he : tick s (some names) = tick_core s [] := by
      simp only [tick, h]
    rw [he]
    exact ⟨rfl, tick_core_tick s []⟩

/-- Witness for the amended C5 with the unknown event name list. -/
theorem C5_malformed_tick_amended_witness :
    tick demoShip (some ["Bogus"]) = tick_core demoShip [] ∧
    (tick demoShip (some ["Bogus"])).current_tick = demoShip.current_tick + 1 :=
  C5_malformed_tick_amended.2 demoShip ["Bogus"] rfl

/-- Powering a failed module zeroes its power and changes nothing else. -/
theorem update_power_failed (m : Module) (a : Nat) (h : m.state = .FAILED) :
    update_power m a = { m with current_power := 0 } := by
  cases m with
  | mk cat spec st cp ht hp ft =>
      simp only [update_power]
      simp only [Module.state] at h
      subst h
      rfl

/-- Powering a failed module yields zero recorded power. -/
theorem update_power_zero (m : Module) (a : Nat) (h : m.state = .FAILED) :
    (update_power m a).current_power = 0 := by
  rw [update_power_failed m a h]

/-- A non-failed module records exactly the allocated amount. -/
theorem update_power_power (m : Module) (a : Nat) (h : m.state ≠ .FAILED) :
    (update_power m a).current_power = a := by
  cases m with
  | mk cat spec st cp ht hp ft =>
      simp only [Module.state] at h
      cases st <;>
        first
          | exact absurd rfl h
          | (simp only [update_power]
             (repeat' split) <;> first | rfl | simp_all)

/-- C1 counterexample: the source priority order is LifeSupport, Reactor,
Bridge, Engine, Shield, Sensors — there is no synthesized Cooler request
and Shield ranks below Engine, contradicting the claimed order — and the
allocator grants `min(required, remaining)`, so a 100W shield request
against a 40W budget receives a partial 40W grant (state `DEGRADED`)
rather than being fully denied. -/
theorem C1_arbitration_counterexample :
    POWER_PRIORITY ≠ claimedArbitrationOrder ∧
    ¬ ("Cooler" ∈ POWER_PRIORITY) ∧
    POWER_PRIORITY.get? 1 = some "Reactor" ∧
    claimedArbitrationOrder.get? 1 = some "Shield" ∧
    ((allocate_list [demoShieldModule] 40).1.map fun m => (m.current_power, m.state)) =
      [(40, ModuleState.DEGRADED)] := by
  refine ⟨?_, ?_, rfl, rfl, ?_⟩ <;> decide

/-- C1 (amended): each tick allocates power by iterating the categories in
the fixed order LifeSupport, Reactor (cooling), Bridge, Engine, Shield,
Sensors, starting from the Design fixed `totalPowerOutput` as budget; every
non-failed module in turn is granted `min(draw, remaining budget)` — a
partial grant when the budget is short — which is subtracted from the
budget, while failed modules are granted zero with the budget untouched;
the granted amounts plus the leftover budget always account for exactly
the initial budget. -/
theorem C1_arbitration_amended :
    POWER_PRIORITY = ["LifeSupport", "Reactor", "Bridge", "Engine", "Shield", "Sensors"] ∧
    (∀ s : ShipSim, allocate_power s =
       { s with modules := (POWER_PRIORITY.foldl allocStep (s.modules, s.total_power_output)).1 }) ∧
    (∀ (m : Module) (rest : List Module) (r : Nat), m.state ≠ .FAILED →
       allocate_list (m :: rest) r =
         (update_power m (min (m.spec.power_draw.getD 0) r) ::
             (allocate_list rest (r - min (m.spec.power_draw.getD 0) r)).1,
          (allocate_list rest (r - min (m.spec.power_draw.getD 0) r)).2)) ∧
    (∀ (m : Module) (rest : List Module) (r : Nat), m.state = .FAILED →
       allocate_list (m :: rest) r =
         (update_power m 0 :: (allocate_list rest r).1, (allocate_list rest r).2)) ∧
    (∀ (ms : List Module) (r : Nat),
       ((allocate_list ms r).1.map fun m => m.current_power).sum + (allocate_list ms r).2 = r) := by
  refine ⟨rfl, fun s => rfl, ?_, ?_, ?_⟩
  · intro m rest r hm
    simp [allocate_list, hm]
  · intro m rest r hm
    simp [allocate_list, hm]
  · intro ms r
    induction ms generalizing r with
    | nil => simp [allocate_list]
    | cons m rest ih =>
        by_cases hm : m.state = .FAILED
        · have ih2 := ih r
          simp only [allocate_list, if_pos hm, List.map_cons, List.sum_cons,
            update_power_zero m 0 hm]
          omega
        · have hle : min (m.spec.power_draw.getD 0) r ≤ r := Nat.min_le_right _ _
          have ih2 := ih (r - min (m.spec.power_draw.getD 0) r)
          simp only [allocate_list, if_neg hm, List.map_cons, List.sum_cons,
            update_power_power m _ hm]
          omega

/-- Witness for the amended C1: the head step at the 100W shield module
against a 40W budget. -/
theorem C1_arbitration_amended_witness :
    allocate_list [demoShieldModule] 40 =
      (update_power demoShieldModule (min (demoShieldModule.spec.power_draw.getD 0) 40) ::
          (allocate_list [] (40 - min (demoShieldModule.spec.power_draw.getD 0) 40)).1,
       (allocate_list [] (40 - min (demoShieldModule.spec.power_draw.getD 0) 40)).2) :=
  C1_arbitration_amended.2.2.1 demoShieldModule [] 40 (by decide)

/-! ### Failure absorption lemmas -/

/-- Unfolding of `setCat` on a cons cell. -/
theorem setCat_cons (p : String × List Module) (rest : List (String × List Module))
    (c : String) (ms : List Module) :
    setCat (p :: rest) c ms = (if p.1 = c then (c, ms) else p) :: setCat rest c ms := rfl

/-- Updating one dict key leaves lookups of other keys unchanged. -/
theorem getCat_setCat_ne (mods : List (String × List Module)) (c c2 : String)
    (ms : List Module) (h : c ≠ c2) :
    getCat (setCat mods c2 ms) c = getCat mods c := by
  induction mods with
  | nil => rfl
  | cons p rest ih =>
      rw [setCat_cons]
      by_cases hp : p.1 = c2
      · rw [if_pos hp]
        simp [getCat, Ne.symm h, hp, ih]
      · rw [if_neg hp]
        by_cases hpc : p.1 = c <;> simp [getCat, hpc, ih]

/-- Updating a present dict key makes its lookup return the new list. -/
theorem getCat_setCat_eq (mods : List (String × List Module)) (c : String)
    (ms l : List Module) (h : getCat mods c = some l) :
    getCat (setCat mods c ms) c = some ms := by
  induction mods with
  | nil => simp [getCat] at h
  | cons p rest ih =>
      rw [setCat_cons]
      by_cases hp : p.1 = c
      · rw [if_pos hp]
        simp [getCat]
      · rw [if_neg hp]
        simp only [getCat, hp] at h
        simp only [getCat, if_neg hp]
        exact ih h

/-- `modAt` of an untouched key after `setCat`. -/
theorem modAt_setCat_ne (mods : List (String × List Module)) (c2 c : String)
    (ms : List Module) (i : Nat) (h : c ≠ c2) :
    modAt (setCat mods c2 ms) c i = modAt mods c i := by
  simp only [modAt]
  rw [getCat_setCat_ne _ _ _ _ h]

/-- `modAt` of the updated key after `setCat`. -/
theorem modAt_setCat_eq (mods : List (String × List Module)) (c : String)
    (ms l : List Module) (i : Nat) (h : getCat mods c = some l) :
    modAt (setCat mods c ms) c i = ms.get? i := by
  simp only [modAt]
  rw [getCat_setCat_eq _ _ _ _ h]

/-- Reading `modAt` through a known lookup. -/
theorem modAt_some {mods : List (String × List Module)} {c : String} {i : Nat}
    {m : Module} {l : List Module} (hg : getCat mods c = some l)
    (hm : modAt mods c i = some m) : l.get? i = some m := by
  simp only [modAt, hg] at hm
  exact hm

/-- Lookup commutes with the per-module thermodynamics map. -/
theorem getCat_thermo (mods : List (String × List Module)) (c : String) :
    getCat (mods.map fun p => (p.1, p.2.map thermo_module)) c =
      (getCat mods c).map fun l => l.map thermo_module := by
  induction mods with
  | nil => rfl
  | cons p rest ih =>
      by_cases hp : p.1 = c <;> simp [getCat, hp, ih]

/-- The allocation loop maps a failed module at any position to the same
position, powered with zero. -/
theorem allocate_list_get_failed (ms : List Module) (r i : Nat) (m : Module)
    (hi : ms.get? i = some m) (hm : m.state = .FAILED) :
    (allocate_list ms r).1.get? i = some (update_power m 0) := by
  induction ms generalizing i r with
  | nil => simp at hi
  | cons hd tl ih =>
      cases i with
      | zero =>
          have hm0 : hd = m := by
            rw [List.get?_cons_zero] at hi
            exact Option.some.inj hi
          subst hm0
          simp [allocate_list, hm]
      | succ j =>
          rw [List.get?_cons_succ] at hi
          by_cases hhd : hd.state = .FAILED
          · rw [show allocate_list (hd :: tl) r =
                (update_power hd 0 :: (allocate_list tl r).1, (allocate_list tl r).2) from by
                  simp [allocate_list, hhd]]
            rw [List.get?_cons_succ]
            exact ih _ _ hi
          · rw [show allocate_list (hd :: tl) r =
                (update_power hd (min (hd.spec.power_draw.getD 0) r) ::
                    (allocate_list tl (r - min (hd.spec.power_draw.getD 0) r)).1,
                 (allocate_list tl (r - min (hd.spec.power_draw.getD 0) r)).2) from by
                  simp [allocate_list, hhd]]
            rw [List.get?_cons_succ]
            exact ih _ _ hi

/-- An allocation step for a different category does not move any module. -/
theorem allocStep_ne (acc : List (String × List Module) × Nat) (c2 c : String) (i : Nat)
    (h : c ≠ c2) : modAt (allocStep acc c2).1 c i = modAt acc.1 c i := by
  unfold allocStep
  cases hg : getCat acc.1 c2 with
  | none => rfl
  | some ms => exact modAt_setCat_ne _ _ _ _ _ h

/-- The allocation step of the category holding a failed module powers that
module with zero in place. -/
theorem allocStep_eq_failed (acc : List (String × List Module) × Nat) (c : String)
    (i : Nat) (m : Module) (hm : modAt acc.1 c i = some m) (hst : m.state = .FAILED) :
    modAt (allocStep acc c).1 c i = some (update_power m 0) := by
  cases hg : getCat acc.1 c with
  | none =>
      simp only [modAt, hg] at hm
      exact Option.noConfusion hm
  | some l =>
      have hl := modAt_some hg hm
      unfold allocStep
      rw [hg]
      rw [modAt_setCat_eq _ _ _ _ _ hg]
      exact allocate_list_get_failed l acc.2 i m hl hst

/-- Once a position holds a failed, zero-powered module, the rest of the
allocation fold keeps it failed and zero-powered. -/
theorem allocFold_keeps_zero (cats : List String) (acc : List (String × List Module) × Nat)
    (c : String) (i : Nat) :
    ∀ m, modAt acc.1 c i = some m → m.state = .FAILED → m.current_power = 0 →
    ∃ m2, modAt (cats.foldl allocStep acc).1 c i = some m2 ∧ m2.state = .FAILED ∧
      m2.current_power = 0 := by
  induction cats generalizing acc with
  | nil => exact fun m hm hst hp => ⟨m, hm, hst, hp⟩
  | cons c2 rest ih =>
      intro m hm hst hp
      rw [List.foldl_cons]
      by_cases hc : c = c2
      · subst hc
        have h1 := allocStep_eq_failed acc c i m hm hst
        refine ih _ (update_power m 0) h1 ?_ (update_power_zero m 0 hst)
        rw [update_power_failed m 0 hst]
        exact hst
      · exact ih _ m ((allocStep_ne acc c2 c i hc).trans hm) hst hp

/-- A failed module of an allocated category ends the allocation fold
failed with zero power. -/
theorem allocFold_failed (cats : List String) (acc : List (String × List Module) × Nat)
    (c : String) (i : Nat) :
    c ∈ cats → ∀ m, modAt acc.1 c i = some m → m.state = .FAILED →
    ∃ m2, modAt (cats.foldl allocStep acc).1 c i = some m2 ∧ m2.state = .FAILED ∧
      m2.current_power = 0 := by
  induction cats generalizing acc with
  | nil => intro h; cases h
  | cons c2 rest ih =>
      intro hmem m hm hst
      rw [List.foldl_cons]
      by_cases hc : c = c2
      · subst hc
        have h1 := allocStep_eq_failed acc c i m hm hst
        refine allocFold_keeps_zero rest _ c i (update_power m 0) h1 ?_
          (update_power_zero m 0 hst)
        rw [update_power_failed m 0 hst]
        exact hst
      · rcases List.mem_cons.mp hmem with he | hmem2
        · exact absurd he hc
        · exact ih _ hmem2 m ((allocStep_ne acc c2 c i hc).trans hm) hst

/-- `_allocate_power` keeps a failed module failed and powers it zero. -/
theorem allocate_power_failed (s : ShipSim) (c : String) (i : Nat) (m : Module)
    (hmem : c ∈ POWER_PRIORITY) (hm : modAt s.modules c i = some m)
    (hst : m.state = .FAILED) :
    ∃ m2, modAt (allocate_power s).modules c i = some m2 ∧ m2.state = .FAILED ∧
      m2.current_power = 0 :=
  allocFold_failed POWER_PRIORITY (s.modules, s.total_power_output) c i hmem m hm hst

/-- Processing one external event never revives a failed module. -/
theorem process_event_failed (s : ShipSim) (e : ExternalEvent) (c : String) (i : Nat)
    (m : Module) (hm : modAt s.modules c i = some m) (hst : m.state = .FAILED) :
    ∃ m2, modAt (process_event s e).modules c i = some m2 ∧ m2.state = .FAILED := by
  cases e with
  | ENGINE_FULL_THRUST =>
      simp only [process_event]
      cases hg : getCat s.modules "Engine" with
      | none => exact ⟨m, hm, hst⟩
      | some l =>
          cases l with
          | nil => exact ⟨m, hm, hst⟩
          | cons eng rest =>
              by_cases hc : c = "Engine"
              · subst hc
                have hl := modAt_some hg hm
                cases i with
                | zero =>
                    have hm0 : eng = m := by
                      rw [List.get?_cons_zero] at hl
                      exact Option.some.inj hl
                    refine ⟨{ eng with is_full_thrust := true }, ?_, ?_⟩
                    · rw [modAt_setCat_eq _ _ _ _ _ hg]
                      rfl
                    · show eng.state = ModuleState.FAILED
                      rw [hm0]
                      exact hst
                | succ j =>
                    rw [List.get?_cons_succ] at hl
                    refine ⟨m, ?_, hst⟩
                    rw [modAt_setCat_eq _ _ _ _ _ hg, List.get?_cons_succ]
                    exact hl
              · refine ⟨m, ?_, hst⟩
                rw [modAt_setCat_ne _ _ _ _ _ hc]
                exact hm
  | SHIELD_HIT =>
      simp only [process_event]
      cases hg : getCat s.modules "Shield" with
      | none => exact ⟨m, hm, hst⟩
      | some l =>
          cases l with
          | nil => exact ⟨m, hm, hst⟩
          | cons sh rest =>
              by_cases hsf : sh.state = ModuleState.FAILED
              · simp only [ne_eq, hsf, not_true_eq_false, if_false, ite_false]
                exact ⟨m, hm, hst⟩
              · simp only [ne_eq, hsf, not_false_eq_true, if_true, ite_true]
                by_cases hc : c = "Shield"
                · subst hc
                  have hl := modAt_some hg hm
                  cases i with
                  | zero =>
                      have hm0 : sh = m := by
                        rw [List.get?_cons_zero] at hl
                        exact Option.some.inj hl
                      rw [hm0] at hsf
                      exact absurd hst hsf
                  | succ j =>
                      rw [List.get?_cons_succ] at hl
                      refine ⟨m, ?_, hst⟩
                      rw [modAt_setCat_eq _ _ _ _ _ hg, List.get?_cons_succ]
                      exact hl
                · refine ⟨m, ?_, hst⟩
                  rw [modAt_setCat_ne _ _ _ _ _ hc]
                  exact hm

/-- Folding the tick's events never revives a failed module. -/
theorem events_fold_failed (evs : List ExternalEvent) (s : ShipSim) (c : String) (i : Nat)
    (m : Module) (hm : modAt s.modules c i = some m) (hst : m.state = .FAILED) :
    ∃ m2, modAt (evs.foldl process_event s).modules c i = some m2 ∧ m2.state = .FAILED := by
  induction evs generalizing s m with
  | nil => exact ⟨m, hm, hst⟩
  | cons e rest ih =>
      rw [List.foldl_cons]
      obtain ⟨m2, hm2, hst2⟩ := process_event_failed s e c i m hm hst
      exact ih _ _ hm2 hst2

/-- The thermodynamics update keeps a failed module failed and does not
touch its power. -/
theorem thermo_module_failed (m : Module) (hst : m.state = .FAILED) :
    (thermo_module m).state = .FAILED ∧
      (thermo_module m).current_power = m.current_power := by
  unfold thermo_module
  have hg : generate_heat m = m := by simp [generate_heat, hst]
  rw [hg]
  by_cases hh : OVERHEAT_THRESHOLD < m.heat * 9 / 10
  · simp [check_overheat, dissipate_heat, hh, hst]
  · simp [check_overheat, dissipate_heat, hh, hst]

/-- `_update_thermodynamics` keeps a failed module failed with its power. -/
theorem update_thermodynamics_failed (s : ShipSim) (c : String) (i : Nat) (m : Module)
    (hm : modAt s.modules c i = some m) (hst : m.state = .FAILED)
    (hp : m.current_power = 0) :
    ∃ m2, modAt (update_thermodynamics s).modules c i = some m2 ∧ m2.state = .FAILED ∧
      m2.current_power = 0 := by
  refine ⟨thermo_module m, ?_, (thermo_module_failed m hst).1, ?_⟩
  · simp only [update_thermodynamics, modAt]
    rw [getCat_thermo]
    cases hg : getCat s.modules c with
    | none =>
        simp only [modAt, hg] at hm
        exact Option.noConfusion hm
    | some l =>
        have hl := modAt_some hg hm
        show (l.map thermo_module).get? i = some (thermo_module m)
        rw [List.get?_map, hl]
        rfl
  · rw [(thermo_module_failed m hst).2, hp]

/-- The end-of-tick thrust-flag reset keeps a failed module failed with
its power. -/
theorem reset_thrust_failed (s : ShipSim) (c : String) (i : Nat) (m : Module)
    (hm : modAt s.modules c i = some m) (hst : m.state = .FAILED)
    (hp : m.current_power = 0) :
    ∃ m2, modAt (reset_thrust s).modules c i = some m2 ∧ m2.state = .FAILED ∧
      m2.current_power = 0 := by
  simp only [reset_thrust]
  cases hg : getCat s.modules "Engine" with
  | none => exact ⟨m, hm, hst, hp⟩
  | some engs =>
      by_cases hc : c = "Engine"
      · subst hc
        have hl := modAt_some hg hm
        refine ⟨{ m with is_full_thrust := false }, ?_, hst, hp⟩
        rw [modAt_setCat_eq _ _ _ _ _ hg]
        rw [List.get?_map, hl]
        rfl
      · refine ⟨m, ?_, hst, hp⟩
        rw [modAt_setCat_ne _ _ _ _ _ hc]
        exact hm

/-- One full tick keeps a failed module failed and powers it zero. -/
theorem tick_core_failed (s : ShipSim) (evs : List ExternalEvent) (c : String) (i : Nat)
    (m : Module) (hmem : c ∈ POWER_PRIORITY) (hm : modAt s.modules c i = some m)
    (hst : m.state = .FAILED) :
    ∃ m2, modAt (tick_core s evs).modules c i = some m2 ∧ m2.state = .FAILED ∧
      m2.current_power = 0 := by
  obtain ⟨m1, hm1, hst1⟩ :=
    events_fold_failed evs { s with current_tick := s.current_tick + 1 } c i m hm hst
  obtain ⟨m2, hm2, hst2, hp2⟩ := allocate_power_failed _ c i m1 hmem hm1 hst1
  obtain ⟨m3, hm3, hst3, hp3⟩ := update_thermodynamics_failed _ c i m2 hm2 hst2 hp2
  exact reset_thrust_failed _ c i m3 hm3 hst3 hp3

/-- Iterated ticks keep a failed, zero-powered module failed and
zero-powered. -/
theorem run_ticks_failed (evss : List (List ExternalEvent)) (s : ShipSim) (c : String)
    (i : Nat) :
    ∀ m, c ∈ POWER_PRIORITY → modAt s.modules c i = some m → m.state = .FAILED →
    m.current_power = 0 →
    ∃ m2, modAt (run_ticks s evss).modules c i = some m2 ∧ m2.state = .FAILED ∧
      m2.current_power = 0 := by
  induction evss generalizing s with
  | nil => exact fun m _ hm hst hp => ⟨m, hm, hst, hp⟩
  | cons evs rest ih =>
      intro m hmem hm hst hp
      simp only [run_ticks, List.foldl_cons]
      obtain ⟨m2, hm2, hst2, hp2⟩ := tick_core_failed s evs c i m hmem hm hst
      exact ih _ m2 hmem hm2 hst2 hp2

/-- C10: in the simulation engine the `FAILED` module state is absorbing:
whatever events arrive, the next tick — and every later tick — leaves a
failed module `FAILED` and allocates it zero power. -/
theorem C10_failed_absorbing :
    ∀ (s : ShipSim) (evs : List ExternalEvent) (c : String) (i : Nat) (m : Module),
      c ∈ POWER_PRIORITY → modAt s.modules c i = some m → m.state = .FAILED →
      (∃ m2, modAt (tick_core s evs).modules c i = some m2 ∧ m2.state = .FAILED ∧
         m2.current_power = 0) ∧
      (∀ evss : List (List ExternalEvent),
        ∃ m3, modAt (run_ticks (tick_core s evs) evss).modules c i = some m3 ∧
          m3.state = .FAILED ∧ m3.current_power = 0) := by
  intro s evs c i m hmem hm hst
  obtain ⟨m2, hm2, hst2, hp2⟩ := tick_core_failed s evs c i m hmem hm hst
  refine ⟨⟨m2, hm2, hst2, hp2⟩, ?_⟩
  intro evss
  exact run_ticks_failed evss _ c i m2 hmem hm2 hst2 hp2

/-- Witness for C10 at the demo ship whose shield has already failed: after
one tick the shield is still failed and holds zero power. -/
theorem C10_failed_absorbing_witness :
    (modAt (tick_core demoShipFailedShield []).modules "Shield" 0).map
        (fun m2 => (m2.state, m2.current_power)) = some (ModuleState.FAILED, 0) := by
  obtain ⟨m2, h1, h2, h3⟩ :=
    (C10_failed_absorbing demoShipFailedShield [] "Shield" 0 demoFailedShield
      (by decide) rfl rfl).1
  rw [h1]
  simp [h2, h3]

end Spaceship
